import Mathlib

/-!
Shallow embedding of `train.py` from the chainer-food-101 repository.

The script is declarative orchestration: it parses CLI flags, saves them to
`<destination>/args.json`, loads and splits the dataset, dispatches on
`model_name` to build a network, selects an optimizer, freezes layers for the
two large architectures, registers trainer extensions (plotting ones gated on
availability), optionally restores a checkpoint, and runs the loop.

The embedding models this control flow as a pure function from the parsed
arguments, the dataset length, the plotting-backend availability flag and a
small filesystem state to an outcome: an optional raised error, the resulting
filesystem, and the ordered trace of effect events the run performed.
External collaborators (dataset loader, network constructors, the chainer
trainer) are represented by the events that invoke them, which is exactly the
structure the claims are about.
-/

namespace Food101

/-- A filesystem path, as a list of components (relative to the working
directory, which always exists). `os.path.join(a, b)` is `a ++ [b]`. -/
abbrev FPath := List String

/-- The parsed CLI arguments (`parse_argument` in `train.py`): every flag with
its type. `multiplier` is a float flag; rationals stand in for the float
values that actually occur (exact decimal literals). `destination` is kept in
component form so that directory creation can be modelled. -/
structure Args where
  seed : Nat
  dataset : String
  device : Int
  model_name : String
  multiplier : ℚ
  batch_size : Nat
  destination : FPath
  resume : String
  epoch : Nat
deriving Repr, DecidableEq

/-- The defaults of `parse_argument`. -/
def defaultArgs : Args :=
  { seed := 12345, dataset := "food-101", device := 0, model_name := "mv2",
    multiplier := 1, batch_size := 32, destination := ["trained"],
    resume := "", epoch := 100 }

/-- The network constructed by the `model_name` dispatch: `MobilenetV2` takes
`num_classes` and `depth_multiplier`, `VGG16` and `ResNet50` take
`num_classes`. -/
inductive Network
  | mobilenetV2 (num_classes : Nat) (depth_multiplier : ℚ)
  | vgg16 (num_classes : Nat)
  | resnet50 (num_classes : Nat)
deriving Repr, DecidableEq

/-- Output dimensionality of a constructed network. -/
def Network.numClasses : Network → Nat
  | .mobilenetV2 c _ => c
  | .vgg16 c => c
  | .resnet50 c => c

/-- The optimizer chosen in `train`: `chainer.optimizers.SGD(lr=0.005)` or
`chainer.optimizers.Adam()` with library-default hyperparameters. -/
inductive Optimizer
  | sgd (lr : ℚ)
  | adam
deriving Repr, DecidableEq

/-- One effect performed by the script, in program order. -/
inductive Event
  | seedRandom (s : Nat)
  | seedNumpy (s : Nat)
  | seedCupy (s : Nat)
  | mkdirDir (p : FPath)
  | writeArgsJson (p : FPath)
  | loadDataset (dir : String) (model_name : String)
  | splitDataset (first_size : Nat) (seed : Nat)
  | makeTrainIter (batch_size : Nat)
  | makeValIter (batch_size : Nat)
  | buildNetwork (m : Network)
  | wrapClassifier
  | setupOptimizer (o : Optimizer)
  | disableTargetLayers
  | useGpu (device : Int)
  | extendEvaluator
  | extendProgressBar
  | extendLogReport
  | extendSnapshot
  | extendSnapshotObject
  | extendPlotLoss
  | extendPlotAccuracy
  | loadResume (path : String)
  | runLoop
deriving Repr, DecidableEq

/-- Filesystem state: existing directories, and files with their content
(only `args.json` files are ever written, so content is an `Args` record). -/
structure FS where
  dirs : List FPath
  files : List (FPath × Args)
deriving Repr, DecidableEq

/-- `os.path.exists`: true for an existing directory or file. -/
def FS.pathExists (fs : FS) (p : FPath) : Bool :=
  fs.dirs.contains p || (fs.files.map Prod.fst).contains p

/-- Parent directory of a path; `[]` is the working directory, which exists. -/
def parentDir (p : FPath) : FPath := p.dropLast

/-- `os.mkdir`: creates exactly one directory level. It raises
`FileExistsError` when the path exists and `FileNotFoundError` when the
parent directory is absent; it never creates intermediate directories. -/
def FS.mkdir (fs : FS) (p : FPath) : Except String FS :=
  if fs.pathExists p then .error "FileExistsError"
  else if parentDir p = [] ∨ fs.pathExists (parentDir p) then
    .ok { fs with dirs := p :: fs.dirs }
  else .error "FileNotFoundError"

/-- `open(path, 'w')` followed by `json.dump`: write, overwriting any
previous file at that path. -/
def FS.writeFile (fs : FS) (p : FPath) (a : Args) : FS :=
  { fs with files := (p, a) :: fs.files.filter (fun q => q.1 ≠ p) }

/-- Content of the file at `p`, if any. -/
def FS.readFile (fs : FS) (p : FPath) : Option Args :=
  (fs.files.find? (fun q => q.1 = p)).map Prod.snd

/-- Result of running a script-level step: the raised error if one escaped,
the filesystem afterwards (file effects persist even when an error is
raised), and the trace of events that happened before the error. -/
structure StepResult where
  err : Option String
  fs : FS
  events : List Event
deriving Repr, DecidableEq

/-- `save_args` (train.py lines 34-42): create the destination directory when
it does not exist (a single `os.mkdir` level), then write `args.json` into
it.  The `print` loop has no modelled effect. -/
def save_args (fs : FS) (args : Args) : StepResult :=
  if fs.pathExists args.destination then
    { err := none,
      fs := fs.writeFile (args.destination ++ ["args.json"]) args,
      events := [Event.writeArgsJson (args.destination ++ ["args.json"])] }
  else
    match fs.mkdir args.destination with
    | .error e => { err := some e, fs := fs, events := [] }
    | .ok fs2 =>
      { err := none,
        fs := fs2.writeFile (args.destination ++ ["args.json"]) args,
        events := [Event.mkdirDir args.destination,
                   Event.writeArgsJson (args.destination ++ ["args.json"])] }

/-- `int(0.9 * len(dataset))` (train.py line 52).  The double closest to 0.9
exceeds 9/10 by about 2.2e-17, and `int` truncates, so for every dataset
length that a real dataset can have the value equals the rational floor
`9 * n / 10`. -/
def trainSplitSize (n : Nat) : Nat := 9 * n / 10

/-- Modelled from the spec: `chainer.datasets.split_dataset_random` is an
external library collaborator (not part of this repository's sources); the
spec describes it as a deterministic, seeded pseudo-random shuffle of the
index range split at `first_size`.  A linear congruential generator stands in
for the library's pseudo-random stream; every property claimed of the split
depends only on the shuffle being a deterministic permutation of the index
range. -/
def lcgStep (s : Nat) : Nat := (s * 1103515245 + 12345) % 2 ^ 31

/-- Fuelled seeded shuffle: repeatedly draw the element at a pseudo-random
position and recurse on the remainder. -/
def drawAux : Nat → Nat → List Nat → List Nat
  | _, 0, _ => []
  | s, fuel + 1, l =>
    if h : l = [] then []
    else
      let i : Fin l.length := ⟨s % l.length, Nat.mod_lt _ (List.length_pos.mpr h)⟩
      l.get i :: drawAux (lcgStep s) fuel (l.eraseIdx i.val)

/-- Seeded shuffle of a list. -/
def shuffleList (seed : Nat) (l : List Nat) : List Nat := drawAux seed l.length l

/-- The seeded pseudo-random order over the index range `0..n-1`. -/
def randomOrder (seed n : Nat) : List Nat := shuffleList seed (List.range n)

/-- `split_dataset_random(dataset, first_size, seed)` on a dataset of length
`n`, viewed through the index partition it induces: the first subset takes
the first `first_size` indices of the seeded order, the second subset the
rest. -/
def split_dataset_random (n first_size seed : Nat) : List Nat × List Nat :=
  let order := randomOrder seed n
  (order.take first_size, order.drop first_size)

/-- The `model_name` dispatch of `train` (lines 57-64): three supported
identifiers, each built with `num_classes=101` (`mv2` also with
`depth_multiplier=1.0`), anything else raises `illegal model name`. -/
def networkFor (model_name : String) : Except String Network :=
  if model_name = "mv2" then .ok (Network.mobilenetV2 101 1)
  else if model_name = "vgg16" then .ok (Network.vgg16 101)
  else if model_name = "resnet50" then .ok (Network.resnet50 101)
  else .error "illegal model name"

/-- The optimizer choice of `train` (lines 66-69): it reads only
`args.model_name`. -/
def selectOptimizer (model_name : String) : Optimizer :=
  if model_name = "mv2" then Optimizer.sgd 0.005 else Optimizer.adam

/-- The supported `--model_name` values. -/
def supportedNames : List String := ["mv2", "vgg16", "resnet50"]

/-- `train` (lines 45-106) as a trace-producing function.  `n` is the length
of the `FoodDataset`, `plotAvailable` the value of
`extensions.PlotReport.available()`.  Each event appears in the order the
corresponding statement executes in the source; a raised exception ends the
trace (the filesystem effects already performed persist). -/
def train (args : Args) (n : Nat) (plotAvailable : Bool) (fs : FS) : StepResult :=
  match save_args fs args with
  | { err := some e, fs := fs1, events := tr } =>
    { err := some e, fs := fs1, events := tr }
  | { err := none, fs := fs1, events := tr0 } =>
    let tr1 := tr0 ++
      [Event.loadDataset args.dataset args.model_name,
       Event.splitDataset (trainSplitSize n) args.seed,
       Event.makeTrainIter args.batch_size,
       Event.makeValIter args.batch_size]
    match networkFor args.model_name with
    | .error e => { err := some e, fs := fs1, events := tr1 }
    | .ok net =>
      { err := none, fs := fs1,
        events := tr1
          ++ [Event.buildNetwork net, Event.wrapClassifier,
              Event.setupOptimizer (selectOptimizer args.model_name)]
          ++ (if args.model_name = "vgg16" then [Event.disableTargetLayers] else [])
          ++ (if args.model_name = "resnet50" then [Event.disableTargetLayers] else [])
          ++ (if 0 ≤ args.device then [Event.useGpu args.device] else [])
          ++ [Event.extendEvaluator, Event.extendProgressBar,
              Event.extendLogReport, Event.extendSnapshot,
              Event.extendSnapshotObject]
          ++ (if plotAvailable then
                [Event.extendPlotLoss, Event.extendPlotAccuracy] else [])
          ++ (if args.resume = "" then [] else [Event.loadResume args.resume])
          ++ [Event.runLoop] }

/-- `set_random_seed` (lines 109-112): seeds `random`, `numpy.random` and
`xp.random` (`xp` being cupy when available, numpy otherwise) from the one
integer seed, in that order. -/
def set_random_seed (seed : Nat) : List Event :=
  [Event.seedRandom seed, Event.seedNumpy seed, Event.seedCupy seed]

/-- `main` (lines 130-133): parse (already done in `args`), seed, train. -/
def main (args : Args) (n : Nat) (plotAvailable : Bool) (fs : FS) : StepResult :=
  let r := train args n plotAvailable fs
  { err := r.err, fs := r.fs, events := set_random_seed args.seed ++ r.events }

/-- The networks whose construction a trace records, in order. -/
def builtNetworks (tr : List Event) : List Network :=
  tr.filterMap (fun e => match e with
    | Event.buildNetwork m => some m
    | _ => none)

/-- The event trace of a successful `train` run, in closed form: `tr0` is the
trace of `save_args`, `net` the constructed network. -/
def okEvents (args : Args) (n : Nat) (pa : Bool) (net : Network)
    (tr0 : List Event) : List Event :=
  tr0
    ++ [Event.loadDataset args.dataset args.model_name,
        Event.splitDataset (trainSplitSize n) args.seed,
        Event.makeTrainIter args.batch_size,
        Event.makeValIter args.batch_size]
    ++ [Event.buildNetwork net, Event.wrapClassifier,
        Event.setupOptimizer (selectOptimizer args.model_name)]
    ++ (if args.model_name = "vgg16" then [Event.disableTargetLayers] else [])
    ++ (if args.model_name = "resnet50" then [Event.disableTargetLayers] else [])
    ++ (if 0 ≤ args.device then [Event.useGpu args.device] else [])
    ++ [Event.extendEvaluator, Event.extendProgressBar,
        Event.extendLogReport, Event.extendSnapshot,
        Event.extendSnapshotObject]
    ++ (if pa then [Event.extendPlotLoss, Event.extendPlotAccuracy] else [])
    ++ (if args.resume = "" then [] else [Event.loadResume args.resume])
    ++ [Event.runLoop]

/-- A filesystem in which the default destination directory `trained`
already exists. -/
def exFS : FS := { dirs := [["trained"]], files := [] }

/-- `exFS` after `save_args` wrote `args.json` for the arguments `a`. -/
def exFS1 (a : Args) : FS :=
  { dirs := [["trained"]], files := [(["trained", "args.json"], a)] }

/-- Removing the element at a valid index and re-consing it is a permutation
of the original list. -/
theorem get_cons_eraseIdx_perm (l : List Nat) (i : Fin l.length) :
    List.Perm (l.get i :: l.eraseIdx i.val) l := by
  induction l with
  | nil => exact absurd i.isLt (by simp)
  | cons a t ih =>
    rcases i with ⟨iv, hlt⟩
    cases iv with
    | zero => simp [List.eraseIdx]
    | succ j =>
      have hj : j < t.length := by simpa using hlt
      have h1 := ih ⟨j, hj⟩
      have h2 : List.Perm
          ((a :: t).get ⟨j + 1, hlt⟩ :: (a :: t).eraseIdx (j + 1))
          (t.get ⟨j, hj⟩ :: a :: t.eraseIdx j) := by
        simp [List.eraseIdx]
      exact h2.trans ((List.Perm.swap _ _ _).trans (h1.cons a))

/-- The fuelled shuffle permutes its input when the fuel covers the length. -/
theorem drawAux_perm :
    ∀ (fuel s : Nat) (l : List Nat), l.length ≤ fuel →
      List.Perm (drawAux s fuel l) l := by
  intro fuel
  induction fuel with
  | zero =>
    intro s l h
    have : l = [] := List.length_eq_zero.mp (Nat.le_zero.mp h)
    subst this
    simp [drawAux]
  | succ f ih =>
    intro s l h
    by_cases hl : l = []
    · subst hl; simp [drawAux]
    · rw [drawAux]
      simp only [dif_neg hl]
      have hpos : 0 < l.length := List.length_pos.mpr hl
      have hlen : (l.eraseIdx (s % l.length)).length ≤ f := by
        have := List.length_eraseIdx_add_one (l := l) (i := s % l.length)
          (Nat.mod_lt _ hpos)
        omega
      exact ((ih (lcgStep s) _ hlen).cons _).trans
        (get_cons_eraseIdx_perm l ⟨s % l.length, Nat.mod_lt _ hpos⟩)

/-- The seeded shuffle is a permutation of its input. -/
theorem shuffleList_perm (seed : Nat) (l : List Nat) :
    List.Perm (shuffleList seed l) l :=
  drawAux_perm l.length seed l le_rfl

/-- The seeded order is a permutation of the index range. -/
theorem randomOrder_perm (seed n : Nat) :
    List.Perm (randomOrder seed n) (List.range n) := by
  simpa [randomOrder] using shuffleList_perm seed (List.range n)

theorem randomOrder_length (seed n : Nat) : (randomOrder seed n).length = n := by
  simpa using (randomOrder_perm seed n).length_eq

theorem randomOrder_nodup (seed n : Nat) : (randomOrder seed n).Nodup :=
  ((randomOrder_perm seed n).nodup_iff).mpr (List.nodup_range n)

theorem mem_if_singleton {c : Prop} [Decidable c] {x a : Event} :
    x ∈ (if c then [a] else ([] : List Event)) ↔ x = a ∧ c := by
  split <;> simp_all

theorem mem_if_nil_left {c : Prop} [Decidable c] {x a : Event} :
    x ∈ (if c then ([] : List Event) else [a]) ↔ x = a ∧ ¬c := by
  split <;> simp_all

theorem mem_if_pair {c : Prop} [Decidable c] {x a b : Event} :
    x ∈ (if c then [a, b] else ([] : List Event)) ↔ (x = a ∨ x = b) ∧ c := by
  split <;> simp_all

/-- The only events `save_args` can record are the directory creation and the
`args.json` write. -/
theorem save_args_events (fs : FS) (args : Args) :
    ∀ e ∈ (save_args fs args).events,
      e = Event.mkdirDir args.destination ∨
      e = Event.writeArgsJson (args.destination ++ ["args.json"]) := by
  intro e he
  unfold save_args at he
  by_cases h1 : fs.pathExists args.destination
  · simp [h1] at he
    exact Or.inr he
  · simp only [h1, Bool.false_eq_true, if_false] at he
    cases h2 : fs.mkdir args.destination with
    | error msg => rw [h2] at he; simp at he
    | ok fs2 =>
      rw [h2] at he
      simp at he
      tauto

/-- When `save_args` raises, `train` returns its result unchanged. -/
theorem train_save_err (args : Args) (n : Nat) (pa : Bool) (fs : FS)
    (e : String) (h : (save_args fs args).err = some e) :
    train args n pa fs = save_args fs args := by
  unfold train
  rcases hs : save_args fs args with ⟨err, fs1, tr0⟩
  rw [hs] at h
  simp only at h
  subst h
  rfl

/-- When `save_args` succeeds and the model name is unsupported, `train`
raises `illegal model name` with the dataset already loaded and split. -/
theorem train_name_err (args : Args) (n : Nat) (pa : Bool) (fs fs1 : FS)
    (tr0 : List Event) (e : String)
    (hs : save_args fs args = ⟨none, fs1, tr0⟩)
    (hn : networkFor args.model_name = Except.error e) :
    train args n pa fs =
      { err := some e, fs := fs1,
        events := tr0 ++
          [Event.loadDataset args.dataset args.model_name,
           Event.splitDataset (trainSplitSize n) args.seed,
           Event.makeTrainIter args.batch_size,
           Event.makeValIter args.batch_size] } := by
  unfold train
  rw [hs, hn]

/-- When `save_args` succeeds and the model name is supported, `train`
succeeds with the closed-form trace `okEvents`. -/
theorem train_ok_closed (args : Args) (n : Nat) (pa : Bool) (fs fs1 : FS)
    (tr0 : List Event) (net : Network)
    (hs : save_args fs args = ⟨none, fs1, tr0⟩)
    (hn : networkFor args.model_name = Except.ok net) :
    train args n pa fs =
      { err := none, fs := fs1, events := okEvents args n pa net tr0 } := by
  unfold train
  rw [hs, hn]
  rfl

/-- Anything in a `train` trace is one of the explicitly listed effects, with
its guard. -/
theorem mem_train_events {args : Args} {n : Nat} {pa : Bool} {fs : FS}
    {e : Event} (he : e ∈ (train args n pa fs).events) :
    e ∈ (save_args fs args).events ∨
    e = Event.loadDataset args.dataset args.model_name ∨
    e = Event.splitDataset (trainSplitSize n) args.seed ∨
    e = Event.makeTrainIter args.batch_size ∨
    e = Event.makeValIter args.batch_size ∨
    (∃ net, networkFor args.model_name = Except.ok net ∧
      (e = Event.buildNetwork net ∨
       e = Event.wrapClassifier ∨
       e = Event.setupOptimizer (selectOptimizer args.model_name) ∨
       (e = Event.disableTargetLayers ∧
         (args.model_name = "vgg16" ∨ args.model_name = "resnet50")) ∨
       (e = Event.useGpu args.device ∧ 0 ≤ args.device) ∨
       e = Event.extendEvaluator ∨
       e = Event.extendProgressBar ∨
       e = Event.extendLogReport ∨
       e = Event.extendSnapshot ∨
       e = Event.extendSnapshotObject ∨
       ((e = Event.extendPlotLoss ∨ e = Event.extendPlotAccuracy) ∧ pa = true) ∨
       (e = Event.loadResume args.resume ∧ args.resume ≠ "") ∨
       e = Event.runLoop)) := by
  rcases herr : (save_args fs args).err with _ | msg
  case some =>
    rw [train_save_err args n pa fs msg herr] at he
    exact Or.inl he
  case none =>
    rcases hs : save_args fs args with ⟨err, fs1, tr0⟩
    rw [hs] at herr
    simp only at herr
    subst herr
    rcases hn : networkFor args.model_name with msg | net
    · rw [train_name_err args n pa fs fs1 tr0 msg hs hn] at he
      simp only [List.mem_append, List.mem_cons, List.not_mem_nil, or_false] at he
      rcases he with h | h
      · exact Or.inl h
      · tauto
    · rw [train_ok_closed args n pa fs fs1 tr0 net hs hn] at he
      simp only [okEvents, List.append_assoc, List.mem_append, List.mem_cons,
        List.not_mem_nil, or_false, mem_if_singleton, mem_if_nil_left,
        mem_if_pair] at he
      rcases he with h | h | h
      · exact Or.inl h
      · tauto
      · exact Or.inr (Or.inr (Or.inr (Or.inr (Or.inr ⟨net, rfl, by tauto⟩))))

/-- C1 (counterexample): running with the unsupported model name `alexnet`
against an existing destination directory does raise `illegal model name`,
but only after the dataset was loaded, split, and wrapped in iterators — so
the failure is not "before any data is touched" as the claim states. -/
theorem C1_cex :
    (train { defaultArgs with model_name := "alexnet" } 100 true exFS).err =
      some "illegal model name" ∧
    Event.loadDataset "food-101" "alexnet" ∈
      (train { defaultArgs with model_name := "alexnet" } 100 true exFS).events ∧
    Event.splitDataset 90 12345 ∈
      (train { defaultArgs with model_name := "alexnet" } 100 true exFS).events ∧
    Event.makeTrainIter 32 ∈
      (train { defaultArgs with model_name := "alexnet" } 100 true exFS).events := by
  decide

/-- C1 (amended): when `model_name` is not one of the three supported
identifiers and `save_args` succeeded, `train` raises `illegal model name`
before any model is built, any optimizer configured, or the loop started —
but only after the arguments were saved and the dataset was loaded, split,
and wrapped in the two iterators. -/
theorem C1_unsupported_model (args : Args) (n : Nat) (pa : Bool) (fs fs1 : FS)
    (tr0 : List Event)
    (hname : args.model_name ∉ supportedNames)
    (hs : save_args fs args = ⟨none, fs1, tr0⟩) :
    train args n pa fs =
      { err := some "illegal model name", fs := fs1,
        events := tr0 ++
          [Event.loadDataset args.dataset args.model_name,
           Event.splitDataset (trainSplitSize n) args.seed,
           Event.makeTrainIter args.batch_size,
           Event.makeValIter args.batch_size] } ∧
    (∀ m, Event.buildNetwork m ∉ (train args n pa fs).events) ∧
    (∀ o, Event.setupOptimizer o ∉ (train args n pa fs).events) ∧
    Event.runLoop ∉ (train args n pa fs).events := by
  have hn : networkFor args.model_name = Except.error "illegal model name" := by
    simp only [supportedNames, List.mem_cons, List.not_mem_nil, or_false,
      not_or] at hname
    obtain ⟨h1, h2, h3⟩ := hname
    simp [networkFor, h1, h2, h3]
  have hteq := train_name_err args n pa fs fs1 tr0 "illegal model name" hs hn
  have hnotin : ∀ e : Event, e ∈ (train args n pa fs).events →
      e ∈ tr0 ∨ e = Event.loadDataset args.dataset args.model_name ∨
      e = Event.splitDataset (trainSplitSize n) args.seed ∨
      e = Event.makeTrainIter args.batch_size ∨
      e = Event.makeValIter args.batch_size := by
    intro e he
    rw [hteq] at he
    simpa using he
  have hse := save_args_events fs args
  rw [hs] at hse
  refine ⟨hteq, ?_, ?_, ?_⟩
  · intro m hm
    rcases hnotin _ hm with h | h | h | h | h
    · rcases hse _ h with h' | h' <;> simp at h'
    all_goals simp at h
  · intro o ho
    rcases hnotin _ ho with h | h | h | h | h
    · rcases hse _ h with h' | h' <;> simp at h'
    all_goals simp at h
  · intro hr
    rcases hnotin _ hr with h | h | h | h | h
    · rcases hse _ h with h' | h' <;> simp at h'
    all_goals simp at h

/-- C1 (witness). -/
theorem C1_unsupported_model_witness :
    train { defaultArgs with model_name := "alexnet" } 100 true exFS =
      { err := some "illegal model name",
        fs := { dirs := [["trained"]],
                files := [(["trained", "args.json"],
                           { defaultArgs with model_name := "alexnet" })] },
        events := [Event.writeArgsJson ["trained", "args.json"]] ++
          [Event.loadDataset "food-101" "alexnet",
           Event.splitDataset 90 12345,
           Event.makeTrainIter 32,
           Event.makeValIter 32] } :=
  (C1_unsupported_model { defaultArgs with model_name := "alexnet" } 100 true
    exFS _ [Event.writeArgsJson ["trained", "args.json"]]
    (by decide) (by decide)).1

/-- C2 (counterexample): with `--multiplier 2` and `model_name=mv2` the one
network the run constructs has `depth_multiplier` 1, not the configured 2:
the `multiplier` flag is parsed but never passed to model construction. -/
theorem C2_cex :
    (({ defaultArgs with multiplier := 2 } : Args).multiplier = 2) ∧
    builtNetworks
        (train { defaultArgs with multiplier := 2 } 100 true exFS).events =
      [Network.mobilenetV2 101 1] ∧
    (2 : ℚ) ≠ 1 := by
  decide

/-- C2 (amended): the `--multiplier` flag is parsed into the configuration
but ignored: every network that a run with `model_name=mv2` constructs is
`MobilenetV2` with `num_classes=101` and `depth_multiplier=1.0`, whatever
the configured multiplier value. -/
theorem C2_multiplier_ignored (args : Args) (n : Nat) (pa : Bool) (fs : FS)
    (m : Network) (hmv2 : args.model_name = "mv2")
    (hm : Event.buildNetwork m ∈ (train args n pa fs).events) :
    m = Network.mobilenetV2 101 1 := by
  rcases mem_train_events hm with h | h | h | h | h | ⟨net, hn, hcase⟩
  · rcases save_args_events fs args _ h with h' | h' <;> simp at h'
  any_goals simp at h
  have hnet : net = Network.mobilenetV2 101 1 := by
    rw [hmv2] at hn
    simpa [networkFor] using hn.symm
  subst hnet
  rcases hcase with h | h | h | h | h | h | h | h | h | h | h | h | h <;>
    simp_all

/-- C2 (witness). -/
theorem C2_multiplier_ignored_witness :
    Network.mobilenetV2 101 1 = Network.mobilenetV2 101 1 :=
  C2_multiplier_ignored { defaultArgs with multiplier := 2 } 100 true exFS
    (Network.mobilenetV2 101 1) (by decide) (by decide)

/-- C3: for every dataset length and every seed, splitting at the train
fraction 0.9 twice yields identical (train, validation) partitions (the
split is a pure function of length and seed); the two partitions are
disjoint and their concatenation is a permutation of the full index range;
and for a 100-sample dataset the split is exactly 90 train and 10
validation indices. -/
theorem C3_split_partition :
    (∀ n seed : Nat,
      split_dataset_random n (trainSplitSize n) seed =
        split_dataset_random n (trainSplitSize n) seed ∧
      List.Disjoint (split_dataset_random n (trainSplitSize n) seed).1
        (split_dataset_random n (trainSplitSize n) seed).2 ∧
      List.Perm
        ((split_dataset_random n (trainSplitSize n) seed).1 ++
          (split_dataset_random n (trainSplitSize n) seed).2)
        (List.range n)) ∧
    (∀ seed : Nat,
      (split_dataset_random 100 (trainSplitSize 100) seed).1.length = 90 ∧
      (split_dataset_random 100 (trainSplitSize 100) seed).2.length = 10) := by
  have hsplit : ∀ n fsz seed : Nat,
      (split_dataset_random n fsz seed).1 ++ (split_dataset_random n fsz seed).2 =
        randomOrder seed n := by
    intro n fsz seed
    simp [split_dataset_random]
  constructor
  · intro n seed
    refine ⟨rfl, ?_, ?_⟩
    · apply List.disjoint_of_nodup_append
      rw [hsplit]
      exact randomOrder_nodup seed n
    · rw [hsplit]
      exact randomOrder_perm seed n
  · intro seed
    have hlen := randomOrder_length seed 100
    constructor
    · show ((randomOrder seed 100).take (trainSplitSize 100)).length = 90
      simp [hlen, trainSplitSize]
    · show ((randomOrder seed 100).drop (trainSplitSize 100)).length = 10
      simp [hlen, trainSplitSize]

/-- C4: the optimizer choice reads only `model_name`: `mv2` gets SGD with
the fixed learning rate 0.005, `vgg16` and `resnet50` get Adam with
library-default hyperparameters, and every optimizer a run sets up is the
one `selectOptimizer` assigns to its `model_name`. -/
theorem C4_optimizer_policy :
    selectOptimizer "mv2" = Optimizer.sgd 0.005 ∧
    selectOptimizer "vgg16" = Optimizer.adam ∧
    selectOptimizer "resnet50" = Optimizer.adam ∧
    ∀ (args : Args) (n : Nat) (pa : Bool) (fs : FS) (o : Optimizer),
      Event.setupOptimizer o ∈ (train args n pa fs).events →
      o = selectOptimizer args.model_name := by
  refine ⟨by simp [selectOptimizer], by simp [selectOptimizer],
    by simp [selectOptimizer], ?_⟩
  intro args n pa fs o ho
  rcases mem_train_events ho with h | h | h | h | h | ⟨net, hn, hcase⟩
  · rcases save_args_events fs args _ h with h' | h' <;> simp at h'
  any_goals simp at h
  rcases hcase with h | h | h | h | h | h | h | h | h | h | h | h | h <;>
    simp_all

/-- C4 (witness): a default run sets up SGD with learning rate 0.005. -/
theorem C4_optimizer_policy_witness :
    selectOptimizer "mv2" = selectOptimizer defaultArgs.model_name :=
  C4_optimizer_policy.2.2.2 defaultArgs 100 true exFS
    (selectOptimizer "mv2")
    (by
      rw [train_ok_closed defaultArgs 100 true exFS (exFS1 defaultArgs)
        [Event.writeArgsJson ["trained", "args.json"]]
        (Network.mobilenetV2 101 1) (by decide)
        (by simp [networkFor, defaultArgs])]
      simp [okEvents, defaultArgs])

/-- C5: provided `save_args` succeeded, a run freezes pretrained layers
(`disable_target_layers`) exactly when `model_name` is `vgg16` or
`resnet50`; in particular an `mv2` run freezes nothing. -/
theorem C5_freeze_policy (args : Args) (n : Nat) (pa : Bool) (fs fs1 : FS)
    (tr0 : List Event) (hs : save_args fs args = ⟨none, fs1, tr0⟩) :
    Event.disableTargetLayers ∈ (train args n pa fs).events ↔
      (args.model_name = "vgg16" ∨ args.model_name = "resnet50") := by
  constructor
  · intro hd
    rcases mem_train_events hd with h | h | h | h | h | ⟨net, hn, hcase⟩
    · rcases save_args_events fs args _ h with h' | h' <;> simp at h'
    any_goals simp at h
    rcases hcase with h | h | h | h | h | h | h | h | h | h | h | h | h <;>
      simp_all
  · intro hname
    rcases hname with hname | hname
    · have hn : networkFor args.model_name = Except.ok (Network.vgg16 101) := by
        simp [networkFor, hname]
      rw [train_ok_closed args n pa fs fs1 tr0 _ hs hn]
      simp [okEvents, hname]
    · have hn : networkFor args.model_name =
          Except.ok (Network.resnet50 101) := by
        simp [networkFor, hname]
      rw [train_ok_closed args n pa fs fs1 tr0 _ hs hn]
      simp [okEvents, hname]

/-- C5 (witness): a `vgg16` run freezes its target layers. -/
theorem C5_freeze_policy_witness :
    Event.disableTargetLayers ∈
      (train { defaultArgs with model_name := "vgg16" } 100 true exFS).events :=
  (C5_freeze_policy { defaultArgs with model_name := "vgg16" } 100 true exFS
    (exFS1 { defaultArgs with model_name := "vgg16" })
    [Event.writeArgsJson ["trained", "args.json"]] (by decide)).mpr
    (Or.inl (by decide))

/-- C6: in every run of `main`, the first three effects are seeding the
host-language RNG, the numeric-array RNG and the accelerator-array RNG from
the single configured seed, in that order and before everything `train`
does; consequently every dataset-split event sits at an index at or past 3,
i.e. no split ever happens before the seeding. -/
theorem C6_seed_before_split (args : Args) (n : Nat) (pa : Bool) (fs : FS) :
    (main args n pa fs).events =
      [Event.seedRandom args.seed, Event.seedNumpy args.seed,
       Event.seedCupy args.seed] ++ (train args n pa fs).events ∧
    ∀ i fsz sd : Nat,
      (main args n pa fs).events[i]? = some (Event.splitDataset fsz sd) →
      3 ≤ i := by
  refine ⟨rfl, ?_⟩
  intro i fsz sd h
  by_contra hc
  push_neg at hc
  interval_cases i <;> simp [main, set_random_seed] at h

/-- C6 (witness): for a default run the split event sits at index 5, after
the three seeding events. -/
theorem C6_seed_before_split_witness :
    (main defaultArgs 100 true exFS).events =
      [Event.seedRandom 12345, Event.seedNumpy 12345, Event.seedCupy 12345] ++
        (train defaultArgs 100 true exFS).events ∧ 3 ≤ 5 :=
  ⟨(C6_seed_before_split defaultArgs 100 true exFS).1,
    (C6_seed_before_split defaultArgs 100 true exFS).2 5 90 12345 (by decide)⟩

/-- C7: on a successful run, a non-empty `--resume` path restores the
trainer from that checkpoint as the very last step before the loop starts
(the trace ends `loadResume, runLoop`), while with the empty default no
restore is ever attempted and the loop is the final step. -/
theorem C7_resume_policy (args : Args) (n : Nat) (pa : Bool) (fs fs1 : FS)
    (tr0 : List Event) (net : Network)
    (hs : save_args fs args = ⟨none, fs1, tr0⟩)
    (hn : networkFor args.model_name = Except.ok net) :
    (args.resume ≠ "" →
      ∃ pre, (train args n pa fs).events =
        pre ++ [Event.loadResume args.resume, Event.runLoop]) ∧
    (args.resume = "" →
      (∀ p, Event.loadResume p ∉ (train args n pa fs).events) ∧
      ∃ pre, (train args n pa fs).events = pre ++ [Event.runLoop]) := by
  rw [train_ok_closed args n pa fs fs1 tr0 net hs hn]
  constructor
  · intro hres
    refine ⟨tr0 ++
      [Event.loadDataset args.dataset args.model_name,
       Event.splitDataset (trainSplitSize n) args.seed,
       Event.makeTrainIter args.batch_size,
       Event.makeValIter args.batch_size]
      ++ [Event.buildNetwork net, Event.wrapClassifier,
          Event.setupOptimizer (selectOptimizer args.model_name)]
      ++ (if args.model_name = "vgg16" then [Event.disableTargetLayers] else [])
      ++ (if args.model_name = "resnet50" then [Event.disableTargetLayers] else [])
      ++ (if 0 ≤ args.device then [Event.useGpu args.device] else [])
      ++ [Event.extendEvaluator, Event.extendProgressBar,
          Event.extendLogReport, Event.extendSnapshot,
          Event.extendSnapshotObject]
      ++ (if pa then [Event.extendPlotLoss, Event.extendPlotAccuracy] else []),
      ?_⟩
    simp [okEvents, hres, List.append_assoc]
  · intro hres
    constructor
    · intro p hp
      have hp' : Event.loadResume p ∈ (train args n pa fs).events := by
        rw [train_ok_closed args n pa fs fs1 tr0 net hs hn]
        exact hp
      rcases mem_train_events hp' with h | h | h | h | h | ⟨net2, hn2, hcase⟩
      · rcases save_args_events fs args _ h with h' | h' <;> simp at h'
      any_goals simp at h
      rcases hcase with h | h | h | h | h | h | h | h | h | h | h | h | h <;>
        simp_all
    · refine ⟨tr0 ++
        [Event.loadDataset args.dataset args.model_name,
         Event.splitDataset (trainSplitSize n) args.seed,
         Event.makeTrainIter args.batch_size,
         Event.makeValIter args.batch_size]
        ++ [Event.buildNetwork net, Event.wrapClassifier,
            Event.setupOptimizer (selectOptimizer args.model_name)]
        ++ (if args.model_name = "vgg16" then [Event.disableTargetLayers] else [])
        ++ (if args.model_name = "resnet50" then [Event.disableTargetLayers] else [])
        ++ (if 0 ≤ args.device then [Event.useGpu args.device] else [])
        ++ [Event.extendEvaluator, Event.extendProgressBar,
            Event.extendLogReport, Event.extendSnapshot,
            Event.extendSnapshotObject]
        ++ (if pa then [Event.extendPlotLoss, Event.extendPlotAccuracy] else []),
        ?_⟩
      simp [okEvents, hres, List.append_assoc]

/-- C7 (witness): with `--resume checkpoint.npz` the default run ends by
restoring then running the loop. -/
theorem C7_resume_policy_witness :
    ∃ pre,
      (train { defaultArgs with resume := "checkpoint.npz" } 100 true
        exFS).events =
        pre ++ [Event.loadResume "checkpoint.npz", Event.runLoop] :=
  (C7_resume_policy { defaultArgs with resume := "checkpoint.npz" } 100 true
    exFS (exFS1 { defaultArgs with resume := "checkpoint.npz" })
    [Event.writeArgsJson ["trained", "args.json"]]
    (Network.mobilenetV2 101 1) (by decide)
    (by simp [networkFor, defaultArgs])).1 (by decide)

/-- C8: plotting is best-effort: on a run whose setup succeeds, the two
`PlotReport` extensions are registered exactly when the availability check
returns true, the run's outcome is success whether or not the plotting
backend is available, and the evaluation, progress, logging and the two
checkpointing extensions are registered unconditionally. -/
theorem C8_plotting_best_effort (args : Args) (n : Nat) (fs fs1 : FS)
    (tr0 : List Event) (net : Network)
    (hs : save_args fs args = ⟨none, fs1, tr0⟩)
    (hn : networkFor args.model_name = Except.ok net) :
    (∀ pa : Bool, (train args n pa fs).err = none) ∧
    (∀ pa : Bool,
      (Event.extendPlotLoss ∈ (train args n pa fs).events ↔ pa = true) ∧
      (Event.extendPlotAccuracy ∈ (train args n pa fs).events ↔ pa = true)) ∧
    (∀ pa : Bool,
      Event.extendEvaluator ∈ (train args n pa fs).events ∧
      Event.extendProgressBar ∈ (train args n pa fs).events ∧
      Event.extendLogReport ∈ (train args n pa fs).events ∧
      Event.extendSnapshot ∈ (train args n pa fs).events ∧
      Event.extendSnapshotObject ∈ (train args n pa fs).events) := by
  have hclosed : ∀ pa : Bool, train args n pa fs =
      { err := none, fs := fs1, events := okEvents args n pa net tr0 } :=
    fun pa => train_ok_closed args n pa fs fs1 tr0 net hs hn
  refine ⟨fun pa => by rw [hclosed pa], fun pa => ⟨?_, ?_⟩, fun pa => ?_⟩
  · constructor
    · intro hp
      rcases mem_train_events hp with h | h | h | h | h | ⟨net2, hn2, hcase⟩
      · rcases save_args_events fs args _ h with h' | h' <;> simp at h'
      any_goals simp at h
      rcases hcase with h | h | h | h | h | h | h | h | h | h | h | h | h <;>
        simp_all
    · intro hpa
      subst hpa
      rw [hclosed true]
      simp [okEvents]
  · constructor
    · intro hp
      rcases mem_train_events hp with h | h | h | h | h | ⟨net2, hn2, hcase⟩
      · rcases save_args_events fs args _ h with h' | h' <;> simp at h'
      any_goals simp at h
      rcases hcase with h | h | h | h | h | h | h | h | h | h | h | h | h <;>
        simp_all
    · intro hpa
      subst hpa
      rw [hclosed true]
      simp [okEvents]
  · rw [hclosed pa]
    simp [okEvents]

/-- C8 (witness): on the default run the plot extensions appear exactly when
the backend is available, and the evaluator is registered either way. -/
theorem C8_plotting_best_effort_witness :
    (train defaultArgs 100 false exFS).err = none ∧
    (Event.extendPlotLoss ∈ (train defaultArgs 100 false exFS).events ↔
      false = true) ∧
    Event.extendEvaluator ∈ (train defaultArgs 100 false exFS).events :=
  ⟨(C8_plotting_best_effort defaultArgs 100 exFS (exFS1 defaultArgs)
      [Event.writeArgsJson ["trained", "args.json"]]
      (Network.mobilenetV2 101 1) (by decide)
      (by simp [networkFor, defaultArgs])).1 false,
   ((C8_plotting_best_effort defaultArgs 100 exFS (exFS1 defaultArgs)
      [Event.writeArgsJson ["trained", "args.json"]]
      (Network.mobilenetV2 101 1) (by decide)
      (by simp [networkFor, defaultArgs])).2.1 false).1,
   ((C8_plotting_best_effort defaultArgs 100 exFS (exFS1 defaultArgs)
      [Event.writeArgsJson ["trained", "args.json"]]
      (Network.mobilenetV2 101 1) (by decide)
      (by simp [networkFor, defaultArgs])).2.2 false).1⟩

/-- C9: every network a supported `model_name` dispatch constructs has its
class count hardcoded to 101 — for every model name string and independently
of the dataset length and of every other flag — and on a successful run the
construction is immediately followed by the `L.Classifier` wrap. -/
theorem C9_num_classes (args : Args) (n : Nat) (pa : Bool) (fs fs1 : FS)
    (tr0 : List Event) (net : Network)
    (hs : save_args fs args = ⟨none, fs1, tr0⟩)
    (hn : networkFor args.model_name = Except.ok net) :
    net.numClasses = 101 ∧
    (∀ (name : String) (net2 : Network),
      networkFor name = Except.ok net2 → net2.numClasses = 101) ∧
    ∃ pre post, (train args n pa fs).events =
      pre ++ [Event.buildNetwork net, Event.wrapClassifier] ++ post := by
  have hall : ∀ (name : String) (net2 : Network),
      networkFor name = Except.ok net2 → net2.numClasses = 101 := by
    intro name net2 h
    unfold networkFor at h
    split_ifs at h <;> simp only [Except.ok.injEq] at h <;>
      simp [← h, Network.numClasses]
  refine ⟨hall _ _ hn, hall, ?_⟩
  rw [train_ok_closed args n pa fs fs1 tr0 net hs hn]
  refine ⟨tr0 ++
    [Event.loadDataset args.dataset args.model_name,
     Event.splitDataset (trainSplitSize n) args.seed,
     Event.makeTrainIter args.batch_size,
     Event.makeValIter args.batch_size],
    [Event.setupOptimizer (selectOptimizer args.model_name)]
    ++ (if args.model_name = "vgg16" then [Event.disableTargetLayers] else [])
    ++ (if args.model_name = "resnet50" then [Event.disableTargetLayers] else [])
    ++ (if 0 ≤ args.device then [Event.useGpu args.device] else [])
    ++ [Event.extendEvaluator, Event.extendProgressBar,
        Event.extendLogReport, Event.extendSnapshot,
        Event.extendSnapshotObject]
    ++ (if pa then [Event.extendPlotLoss, Event.extendPlotAccuracy] else [])
    ++ (if args.resume = "" then [] else [Event.loadResume args.resume])
    ++ [Event.runLoop], ?_⟩
  simp [okEvents, List.append_assoc]

/-- C9 (witness). -/
theorem C9_num_classes_witness :
    Network.numClasses (Network.resnet50 101) = 101 :=
  (C9_num_classes { defaultArgs with model_name := "resnet50" } 100 true exFS
    (exFS1 { defaultArgs with model_name := "resnet50" })
    [Event.writeArgsJson ["trained", "args.json"]]
    (Network.resnet50 101) (by decide)
    (by simp [networkFor])).1

/-- Reading back a freshly written file yields what was written. -/
theorem FS.readFile_writeFile (fs : FS) (p : FPath) (a : Args) :
    (fs.writeFile p a).readFile p = some a := by
  simp [FS.readFile, FS.writeFile, List.find?]

/-- `train` leaves the filesystem exactly as `save_args` left it: no later
step of the script writes to disk before the loop runs. -/
theorem train_fs (args : Args) (n : Nat) (pa : Bool) (fs : FS) :
    (train args n pa fs).fs = (save_args fs args).fs := by
  unfold train
  rcases hs : save_args fs args with ⟨err, fs1, tr0⟩
  cases err with
  | none => cases hn : networkFor args.model_name <;> rfl
  | some e => rfl

/-- C10: `save_args` creates the destination directory only when it is
absent and only one level deep: when both the destination and its parent are
missing the run raises `FileNotFoundError` with the filesystem untouched,
before any dataset loading and before the loop; when the destination
already exists no directory is created; whenever `os.mkdir` cannot raise,
`args.json` is (over)written in the destination and persists even when a
later step fails; and when the destination is absent but its parent exists
it is created. -/
theorem C10_save_args_destination (args : Args) (n : Nat) (pa : Bool)
    (fs : FS) :
    (fs.pathExists args.destination = false →
      parentDir args.destination ≠ [] →
      fs.pathExists (parentDir args.destination) = false →
      (train args n pa fs).err = some "FileNotFoundError" ∧
      (train args n pa fs).fs = fs ∧
      (∀ d m, Event.loadDataset d m ∉ (train args n pa fs).events) ∧
      Event.runLoop ∉ (train args n pa fs).events) ∧
    ((fs.pathExists args.destination = true ∨
        parentDir args.destination = [] ∨
        fs.pathExists (parentDir args.destination) = true) →
      FS.readFile (train args n pa fs).fs
        (args.destination ++ ["args.json"]) = some args) ∧
    (fs.pathExists args.destination = true →
      Event.mkdirDir args.destination ∉ (train args n pa fs).events) ∧
    (fs.pathExists args.destination = false →
      (parentDir args.destination = [] ∨
        fs.pathExists (parentDir args.destination) = true) →
      Event.mkdirDir args.destination ∈ (train args n pa fs).events ∧
      args.destination ∈ (train args n pa fs).fs.dirs) := by
  refine ⟨?_, ?_, ?_, ?_⟩
  · intro h1 h2 h3
    have hsv : save_args fs args =
        { err := some "FileNotFoundError", fs := fs, events := [] } := by
      simp [save_args, FS.mkdir, h1, h2, h3]
    have hteq := train_save_err args n pa fs "FileNotFoundError"
      (by rw [hsv])
    rw [hteq, hsv]
    simp
  · intro hok
    rw [train_fs]
    rcases hok with h1 | hp
    · have hsv : (save_args fs args).fs =
          fs.writeFile (args.destination ++ ["args.json"]) args := by
        simp [save_args, h1]
      rw [hsv]
      exact FS.readFile_writeFile fs _ args
    · by_cases h1 : fs.pathExists args.destination
      · have hsv : (save_args fs args).fs =
            fs.writeFile (args.destination ++ ["args.json"]) args := by
          simp [save_args, h1]
        rw [hsv]
        exact FS.readFile_writeFile fs _ args
      · have hmk : fs.mkdir args.destination =
            Except.ok { fs with dirs := args.destination :: fs.dirs } := by
          rcases hp with hp | hp <;> simp [FS.mkdir, h1, hp]
        have hsv : (save_args fs args).fs =
            FS.writeFile { fs with dirs := args.destination :: fs.dirs }
              (args.destination ++ ["args.json"]) args := by
          simp [save_args, h1, hmk]
        rw [hsv]
        exact FS.readFile_writeFile _ _ args
  · intro h1 hm
    have hse := save_args_events fs args
    have hsev : (save_args fs args).events =
        [Event.writeArgsJson (args.destination ++ ["args.json"])] := by
      simp [save_args, h1]
    rcases mem_train_events hm with h | h | h | h | h | ⟨net, hn, hcase⟩
    · rw [hsev] at h
      simp at h
    any_goals simp at h
    rcases hcase with h | h | h | h | h | h | h | h | h | h | h | h | h <;>
      simp_all
  · intro h1 hp
    have hmk : fs.mkdir args.destination =
        Except.ok { fs with dirs := args.destination :: fs.dirs } := by
      rcases hp with hp | hp <;> simp [FS.mkdir, h1, hp]
    have hsv : save_args fs args =
        { err := none,
          fs := FS.writeFile { fs with dirs := args.destination :: fs.dirs }
            (args.destination ++ ["args.json"]) args,
          events := [Event.mkdirDir args.destination,
                     Event.writeArgsJson (args.destination ++ ["args.json"])] } := by
      simp [save_args, h1, hmk]
    constructor
    · rcases hn : networkFor args.model_name with msg | net
      · rw [train_name_err args n pa fs _ _ msg hsv hn]
        simp
      · rw [train_ok_closed args n pa fs _ _ net hsv hn]
        simp [okEvents]
    · rw [train_fs, hsv]
      simp [FS.writeFile]

/-- C10 (witness): a destination two levels deep under a missing parent
fails with `FileNotFoundError`; the default run (over)writes `args.json`
into the existing `trained` directory. -/
theorem C10_save_args_destination_witness :
    (train { defaultArgs with destination := ["x", "y"] } 100 true exFS).err =
      some "FileNotFoundError" ∧
    FS.readFile (train defaultArgs 100 true exFS).fs
      (["trained"] ++ ["args.json"]) = some defaultArgs :=
  ⟨((C10_save_args_destination { defaultArgs with destination := ["x", "y"] }
      100 true exFS).1 (by decide) (by decide) (by decide)).1,
   (C10_save_args_destination defaultArgs 100 true exFS).2.1
      (Or.inl (by decide))⟩

end Food101
